import Mathlib

/-!
Shallow embedding of src/map.js (New Mexico Dispensary Territory Map) and
proofs about its coordinate resolution, seeded jitter, geocode cache
normalization, filter pipeline, trend bucketing and sparkline geometry.

Modelling conventions: JS numbers are modelled by the rationals; a value that
may be null or undefined by Option; a numeric value that may be NaN by an
inner Option (none standing for NaN). All strings the program compares or
hashes are ASCII, so ASCII case folding and code points model toLowerCase and
charCodeAt faithfully on every input the claims touch.
-/

namespace DispoMap

/-- JS string toLowerCase, restricted to ASCII letters. Mirrors the
toLowerCase calls in map.js. -/
def jsToLower (s : String) : String :=
  String.mk (s.data.map Char.toLower)

/-- The whitespace characters of the regular expression class backslash s in
map.js, restricted to the ASCII range. -/
def isJsSpace (c : Char) : Bool :=
  c = ' ' || c = '\t' || c = '\n' || c = '\r' || c = '\u000B' || c = '\u000C'

/-- Replacement of every maximal run of whitespace by a single space, as in
the norm helper of map.js (loadData lines 45 to 49). -/
def collapseWs : List Char → List Char
  | [] => []
  | [c] => if isJsSpace c then [' '] else [c]
  | c1 :: c2 :: rest =>
    if isJsSpace c1 && isJsSpace c2 then collapseWs (c2 :: rest)
    else (if isJsSpace c1 then ' ' else c1) :: collapseWs (c2 :: rest)

/-- Strip whitespace from both ends of a character list. -/
def trimEnds (l : List Char) : List Char :=
  ((l.dropWhile isJsSpace).reverse.dropWhile isJsSpace).reverse

/-- JS String.trim. -/
def jsTrim (s : String) : String :=
  String.mk (trimEnds s.data)

/-- The key canonicalisation of map.js (loadData lines 45 to 49, repeated in
updateMap lines 308 to 312): lower case, delete periods and commas, collapse
whitespace runs to one space, trim. -/
def normKey (s : String) : String :=
  String.mk (trimEnds (collapseWs ((jsToLower s).data.filter
    (fun c => !(c = '.' || c = ',')))))

/-- The first list is a leading run of the second. -/
def leadsWith : List Char → List Char → Bool
  | [], _ => true
  | _ :: _, [] => false
  | a :: as, b :: bs => a = b && leadsWith as bs

/-- The first list occurs somewhere inside the second: JS String.includes. -/
def occursIn (sub : List Char) : List Char → Bool
  | [] => leadsWith sub []
  | c :: rest => leadsWith sub (c :: rest) || occursIn sub rest

/-- JS s.includes(sub). -/
def sIncludes (s sub : String) : Bool :=
  occursIn sub.data s.data

/-- The UTF-16 code units of a string, as charCodeAt yields them; every seed
the program hashes is ASCII, where code units and code points agree. -/
def charCodes (s : String) : List Nat :=
  s.data.map Char.toNat

/-- One character step of seededRandom (map.js lines 192 to 193): the 32 bit
xor with the code unit, then the shift and add mix. JS keeps the running
value exact in a double and the next operation reads it back modulo 2 to the
32, so the step is integer arithmetic modulo 4294967296. -/
def seedStep (h c : Nat) : Nat :=
  let h1 := (h ^^^ c) % 4294967296
  (h1 + ((h1 * 2) % 4294967296 + (h1 * 16) % 4294967296 + (h1 * 128) % 4294967296
      + (h1 * 256) % 4294967296 + (h1 * 16777216) % 4294967296)) % 4294967296

/-- Simple seeded PRNG returning a value in the unit interval (map.js
seededRandom, lines 188 to 197): fold the step over the code units starting
from 2166136261, then divide the final unsigned 32 bit value by 2 to the 32. -/
def seededRandom (seed : String) : ℚ :=
  (((charCodes seed).foldl seedStep 2166136261 : ℕ) : ℚ) / 4294967296

/-- Stable deterministic jitter for a given seed (map.js getStableJitter,
lines 180 to 185). The source declares a default scale of 0.01; updateMap
passes 0.004 explicitly. -/
def getStableJitter (seed : String) (scale : ℚ) : ℚ × ℚ :=
  ((seededRandom (seed ++ ":lat") - 1/2) * scale,
   (seededRandom (seed ++ ":lng") - 1/2) * scale)

/-- A geocode cache entry. isFinite screens both fields before every use, so
a field is modelled as some q exactly when the stored value is a finite
number q, and none otherwise. -/
structure GeoEntry where
  lat : Option ℚ
  lng : Option ℚ
deriving DecidableEq

/-- The zip field as the code reads it: a nonnegative integral JS number, or
a string. -/
inductive ZipVal where
  | num : Nat → ZipVal
  | str : String → ZipVal
deriving DecidableEq

/-- JS String(zip). -/
def ZipVal.render : ZipVal → String
  | .num n => toString n
  | .str s => s

/-- JS Number(zip).toFixed(1), reached only for a zip whose string form holds
no period: an integral value n renders as its digits followed by .0; a digit
string is coerced to its number first, and any other string would coerce to
NaN. -/
def ZipVal.fixed1 : ZipVal → String
  | .num n => toString n ++ ".0"
  | .str s =>
    match s.toNat? with
    | some n => toString n ++ ".0"
    | none => "NaN"

/-- One monthly sales point, with the fields map.js reads. The month field is
none when missing; total sales is none when null or undefined, some none when
NaN, and some (some q) for a finite value q. -/
structure MonthlyPoint where
  month : Option String
  total_sales : Option (Option ℚ)
deriving DecidableEq

/-- One dispensary record, with the fields the claims touch. latitude and
longitude are none when null or undefined, and otherwise carry their
parseFloat image: some none when the parse is not finite, some (some q) for a
finite parse q. -/
structure Dispensary where
  licensee : String
  address : String
  city : String
  region : String
  zip : Option ZipVal
  latitude : Option (Option ℚ)
  longitude : Option (Option ℚ)
  trend_direction : Option String
  monthly_data : List (Option MonthlyPoint)
deriving DecidableEq

/-- The geocode cache as its key and value pairs in object key order. -/
abbrev GeoCache := List (String × GeoEntry)

/-- Tier 1 of updateMap (lines 271 to 278): explicit coordinates, accepted
only when both parse to finite numbers. -/
def parsedExplicit (d : Dispensary) : Option (ℚ × ℚ) :=
  match d.latitude, d.longitude with
  | some la, some lo =>
    match la, lo with
    | some a, some b => some (a, b)
    | _, _ => none
  | _, _ => none

/-- The candidate cache keys of updateMap (lines 282 to 296): address and
city, both trimmed and nonempty; then with the raw zip string; then, when the
zip string holds no period, with the zip rendered to one decimal place. -/
def candidateKeys (d : Dispensary) : List String :=
  let addr := jsTrim d.address
  let city := jsTrim d.city
  if addr ≠ "" ∧ city ≠ "" then
    match d.zip with
    | none => [addr ++ ", " ++ city]
    | some z =>
      let zipStr := z.render
      if zipStr.data.contains '.' then
        [addr ++ ", " ++ city, addr ++ ", " ++ city ++ " " ++ zipStr]
      else
        [addr ++ ", " ++ city, addr ++ ", " ++ city ++ " " ++ zipStr,
         addr ++ ", " ++ city ++ " " ++ z.fixed1]
  else []

/-- The coordinates of a looked up entry when the lookup hit and both parts
are finite, as the guard hit and isFinite of lat and isFinite of lng of
updateMap lines 301 and 316 tests them. -/
def entryCoords : Option GeoEntry → Option (ℚ × ℚ)
  | some e =>
    match e.lat, e.lng with
    | some la, some lo => some (la, lo)
    | _, _ => none
  | none => none

/-- Exact cache lookup over the candidate keys; the first hit with finite
coordinates wins (updateMap lines 299 to 306). -/
def exactCacheHit (cache : GeoCache) : List String → Option (ℚ × ℚ)
  | [] => none
  | k :: rest =>
    match entryCoords ((cache.find? (fun p => p.1 == k)).map (fun p => p.2)) with
    | some p => some p
    | none => exactCacheHit cache rest

/-- The normalized index entry of a canonical key: loadData (lines 44 to 52)
writes every entry in object key order into one map, so of several raw keys
with the same canonical form the last written wins. -/
def normIndexLookup (cache : GeoCache) (nk : String) : Option GeoEntry :=
  (cache.reverse.find? (fun p => normKey p.1 == nk)).map (fun p => p.2)

/-- Normalized cache lookup over the candidate keys (updateMap lines 307 to
322): the first candidate whose canonical form hits an entry with finite
coordinates wins. -/
def normCacheHit (cache : GeoCache) : List String → Option (ℚ × ℚ)
  | [] => none
  | k :: rest =>
    match entryCoords (normIndexLookup cache (normKey k)) with
    | some p => some p
    | none => normCacheHit cache rest

/-- Tiers 2 and 3 of updateMap (lines 281 to 323): the block runs only when a
cache was loaded; exact lookup over all candidates first, then the normalized
lookup. -/
def cacheStage (geoCache : Option GeoCache) (d : Dispensary) : Option (ℚ × ℚ) :=
  match geoCache with
  | none => none
  | some cache =>
    let cands := candidateKeys d
    match exactCacheHit cache cands with
    | some p => some p
    | none => normCacheHit cache cands

/-- The decimal constant n over 10000: the literal decimals of map.js written
as kernel computable rationals (the scientific literal instance of Rat is
irreducible by design and would block evaluation). -/
def dec4 (n : Int) : ℚ := (n : ℚ) / 10000

/-- The static city centroid table of map.js (getCityCoordinates, lines 431
to 529). -/
def getCityCoordinates : List (String × (ℚ × ℚ)) :=
  [("Albuquerque", (dec4 350844, dec4 (-1066504))),
   ("Albquerque", (dec4 350844, dec4 (-1066504))),
   ("Santa Fe", (dec4 356870, dec4 (-1059378))),
   ("Las Cruces", (dec4 323199, dec4 (-1067637))),
   ("Roswell", (dec4 333943, dec4 (-1045230))),
   ("Farmington", (dec4 367281, dec4 (-1082187))),
   ("Clovis", (dec4 344048, dec4 (-1032052))),
   ("Hobbs", (dec4 327426, dec4 (-1031372))),
   ("Alamogordo", (dec4 328995, dec4 (-1059603))),
   ("Carlsbad", (dec4 324207, dec4 (-1042288))),
   ("Gallup", (dec4 355281, dec4 (-1087426))),
   ("Las Vegas", (dec4 355939, dec4 (-1052230))),
   ("Silver City", (dec4 327701, dec4 (-1082803))),
   ("Los Alamos", (dec4 358781, dec4 (-1062978))),
   ("Taos", (dec4 364073, dec4 (-1055731))),
   ("Espanola", (dec4 359911, dec4 (-1060803))),
   ("Rio Rancho", (dec4 352328, dec4 (-1066630))),
   ("Deming", (dec4 322687, dec4 (-1077586))),
   ("Grants", (dec4 351473, dec4 (-1078548))),
   ("Socorro", (dec4 340582, dec4 (-1068906))),
   ("Portales", (dec4 341862, dec4 (-1033538))),
   ("Tucumcari", (dec4 351717, dec4 (-1037250))),
   ("Truth or Consequences", (dec4 331284, dec4 (-1072528))),
   ("Ruidoso", (dec4 333317, dec4 (-1056731))),
   ("Artesia", (dec4 328426, dec4 (-1044028))),
   ("Lovington", (dec4 329445, dec4 (-1033488))),
   ("Belen", (dec4 346620, dec4 (-1067764))),
   ("Los Lunas", (dec4 348064, dec4 (-1067331))),
   ("Bernalillo", (dec4 353103, dec4 (-1065517))),
   ("Corrales", (dec4 352317, dec4 (-1066142))),
   ("Edgewood", (dec4 350654, dec4 (-1061964))),
   ("Chaparral", (dec4 319135, dec4 (-1063839))),
   ("Sunland Park", (dec4 317951, dec4 (-1065806))),
   ("Anthony", (dec4 319979, dec4 (-1066011))),
   ("Mesilla", (dec4 322723, dec4 (-1068006))),
   ("Mesilla Park", (dec4 322840, dec4 (-1067614))),
   ("Jal", (dec4 321126, dec4 (-1031921))),
   ("Eunice", (dec4 324390, dec4 (-1031549))),
   ("Clayton", (dec4 364556, dec4 (-1031893))),
   ("Raton", (dec4 369042, dec4 (-1044394))),
   ("Angel Fire", (dec4 364067, dec4 (-1052897))),
   ("Red River", (dec4 367053, dec4 (-1054072))),
   ("Questa", (dec4 367067, dec4 (-1055942))),
   ("Chama", (dec4 369030, dec4 (-1065814))),
   ("Aztec", (dec4 368381, dec4 (-1080009))),
   ("Bloomfield", (dec4 367072, dec4 (-1079848))),
   ("Kirtland", (dec4 367381, dec4 (-1083148))),
   ("Cuba", (dec4 360311, dec4 (-1070936))),
   ("Milan", (dec4 351750, dec4 (-1078889))),
   ("White Rock", (dec4 358314, dec4 (-1062083))),
   ("Alcalde", (dec4 360886, dec4 (-1060536))),
   ("El Prado", (dec4 364406, dec4 (-1055689))),
   ("Taos Ski Valley", (dec4 365928, dec4 (-1054467))),
   ("Picuris Pueblo", (dec4 361892, dec4 (-1057578))),
   ("Placitas", (dec4 353314, dec4 (-1065633))),
   ("Los Ranchos", (dec4 351417, dec4 (-1066472))),
   ("Bosque Farms", (dec4 348589, dec4 (-1067103))),
   ("Peralta", (dec4 348203, dec4 (-1066931))),
   ("Rio Communities", (dec4 346531, dec4 (-1067483))),
   ("Cedar Crest", (dec4 351364, dec4 (-1063661))),
   ("Moriarty", (dec4 350047, dec4 (-1060489))),
   ("Estancia", (dec4 347592, dec4 (-1060517))),
   ("Madrid", (dec4 352644, dec4 (-1061500))),
   ("Pena Blanca", (dec4 355653, dec4 (-1063361))),
   ("San Ysidro", (dec4 355214, dec4 (-1067789))),
   ("Jemez Springs", (dec4 357739, dec4 (-1066917))),
   ("Santa Rosa", (dec4 349381, dec4 (-1046836))),
   ("Fort Sumner", (dec4 344725, dec4 (-1042436))),
   ("Logan", (dec4 353586, dec4 (-1034189))),
   ("Vaughn", (dec4 345931, dec4 (-1051703))),
   ("Santa Teresa", (dec4 317901, dec4 (-1067019))),
   ("Vado", (dec4 321162, dec4 (-1066603))),
   ("Hatch", (dec4 326612, dec4 (-1071531))),
   ("Arrey", (dec4 328292, dec4 (-1072758))),
   ("Elephant Butte", (dec4 331470, dec4 (-1071858))),
   ("Bayard", (dec4 327898, dec4 (-1081311))),
   ("San Lorenzo", (dec4 328631, dec4 (-1081300))),
   ("Columbus", (dec4 318281, dec4 (-1076411))),
   ("Lordsburg", (dec4 323506, dec4 (-1087114))),
   ("Tularosa", (dec4 330742, dec4 (-1059547))),
   ("Cloudcroft", (dec4 329595, dec4 (-1057408))),
   ("Ruidoso Downs", (dec4 333206, dec4 (-1056086))),
   ("Carrizozo", (dec4 336431, dec4 (-1058769))),
   ("Capitan", (dec4 335453, dec4 (-1055850))),
   ("Alto", (dec4 333658, dec4 (-1056836))),
   ("Loving", (dec4 322890, dec4 (-1039311))),
   ("Tatum", (dec4 332531, dec4 (-1033155))),
   ("Texico", (dec4 343925, dec4 (-1030497))),
   ("Glenrio", (dec4 351856, dec4 (-1030419))),
   ("Rodeo", (dec4 318356, dec4 (-1090311))),
   ("Timberon", (dec4 326281, dec4 (-1056969))),
   ("Yah Ta Hey", (dec4 356508, dec4 (-1087881))),
   ("Mora", (dec4 360047, dec4 (-1053281))),
   ("Eagle Nest", (dec4 365394, dec4 (-1052708)))]

/-- Lookup of a city in the static centroid table, as the object access of
updateMap line 327. -/
def cityTableLookup (c : String) : Option (ℚ × ℚ) :=
  (getCityCoordinates.find? (fun p => p.1 == c)).map (fun p => p.2)

/-- The coordinate resolution of updateMap (lines 266 to 336) for one record:
explicit coordinates, then the geocode cache, then the city centroid plus a
small stable jitter seeded by address, a bar and licensee at scale 0.004;
none when no centroid exists for the city, and the record is skipped. The
city table is a parameter; updateMap always passes the static table. -/
def resolveCoord (geoCache : Option GeoCache) (tbl : String → Option (ℚ × ℚ))
    (d : Dispensary) : Option (ℚ × ℚ) :=
  match parsedExplicit d with
  | some p => some p
  | none =>
    match cacheStage geoCache d with
    | some p => some p
    | none =>
      match tbl d.city with
      | none => none
      | some c =>
        let j := getStableJitter (d.address ++ "|" ++ d.licensee) 0.004
        some (c.1 + j.1, c.2 + j.2)

/-- The coarse trend bucket of map.js (baseTrend, lines 171 to 177): a falsy
label (absent or empty) is stable; otherwise the lower cased label is tested
for the substrings up and then down. -/
def baseTrend (trend : Option String) : String :=
  if trend = none ∨ trend = some "" then "stable"
  else
    let t := jsToLower (trend.getD "")
    if sIncludes t "up" then "up"
    else if sIncludes t "down" then "down"
    else "stable"

/-- The search predicate of applyFilters (map.js lines 141 to 145):
case insensitive substring match of the already lowered term against
licensee, address and city. -/
def searchHit (term : String) (d : Dispensary) : Bool :=
  sIncludes (jsToLower d.licensee) term || sIncludes (jsToLower d.address) term
    || sIncludes (jsToLower d.city) term

/-- The filter pipeline of map.js (applyFilters, lines 132 to 169) as a pure
function of the source list and the four control values: the search input is
lowered, and each stage filters only when its control is active (nonempty
search and selections, a trend control other than the all button). -/
def applyFilters (source : List Dispensary) (searchInput regionSel citySel
    trendFilter : String) : List Dispensary :=
  let searchTerm := jsToLower searchInput
  let f1 := if searchTerm = "" then source else source.filter (searchHit searchTerm)
  let f2 := if regionSel = "" then f1 else f1.filter (fun d => d.region == regionSel)
  let f3 := if citySel = "" then f2 else f2.filter (fun d => d.city == citySel)
  if trendFilter = "all" then f3
  else f3.filter (fun d => baseTrend d.trend_direction == trendFilter)

/-- The aggregate counters of map.js (calculateStats, line 222). -/
structure Stats where
  up : Nat
  down : Nat
  stable : Nat
deriving DecidableEq

/-- One forEach step of calculateStats (lines 223 to 226): increment the
counter the coarse bucket of the record selects. baseTrend only ever yields
up, down or stable, so the three branches cover every reachable key. -/
def bumpStat (s : Stats) (key : String) : Stats :=
  if key = "up" then ⟨s.up + 1, s.down, s.stable⟩
  else if key = "down" then ⟨s.up, s.down + 1, s.stable⟩
  else ⟨s.up, s.down, s.stable + 1⟩

/-- map.js calculateStats (lines 221 to 228). -/
def calculateStats (dispensaries : List Dispensary) : Stats :=
  dispensaries.foldl (fun s d => bumpStat s (baseTrend d.trend_direction)) ⟨0, 0, 0⟩

/-- The canvas constants of createMiniSparkline (lines 546 to 547 and 596). -/
def sparkWidth : ℚ := 100

/-- The canvas height constant of createMiniSparkline. -/
def sparkHeight : ℚ := 40

/-- The padding constant of createMiniSparkline. -/
def sparkPadding : ℚ := 5

/-- The month key a point sorts by: the comparator of line 552 reads the
month field, present and nonempty on every point that survives the filter of
line 551. -/
def monthKey (p : MonthlyPoint) : String :=
  p.month.getD ""

/-- The sort relation of createMiniSparkline line 552: ascending month key.
localeCompare on the zero padded ASCII month keys of the data orders them
exactly as the character order does. -/
def monthLe (p q : MonthlyPoint) : Prop :=
  monthKey p ≤ monthKey q

instance : DecidableRel monthLe :=
  fun p q => inferInstanceAs (Decidable (monthKey p ≤ monthKey q))

instance : IsTotal MonthlyPoint monthLe :=
  ⟨fun a b => le_total (monthKey a) (monthKey b)⟩

instance : IsTrans MonthlyPoint monthLe :=
  ⟨fun _ _ _ h h2 => le_trans h h2⟩

/-- JS truthiness of the month field: present and nonempty. -/
def monthTruthy (p : MonthlyPoint) : Bool :=
  match p.month with
  | some m => m ≠ ""
  | none => false

/-- The first filter of createMiniSparkline (line 551): keep the entries that
are themselves truthy, have a truthy month and a total sales field that is
neither undefined nor null; the surviving entries are carried as their
payload. -/
def usablePoints (monthlyData : List (Option MonthlyPoint)) : List MonthlyPoint :=
  monthlyData.filterMap (fun od =>
    match od with
    | some p => if monthTruthy p && p.total_sales.isSome then some p else none
    | none => none)

/-- The sorted usable points of createMiniSparkline (lines 550 to 552). JS
Array.sort is stable, and a stable sort by a total preorder has one possible
output, so insertion sort models it exactly. -/
def sortedPoints (monthlyData : List (Option MonthlyPoint)) : List MonthlyPoint :=
  List.insertionSort monthLe (usablePoints monthlyData)

/-- The second filter of createMiniSparkline (line 553) on a raw total sales
value: drop NaN and negative values, keep the finite nonnegative ones. -/
def keepValue : Option (Option ℚ) → Option ℚ
  | some (some q) => if 0 ≤ q then some q else none
  | _ => none

/-- The values createMiniSparkline plots (line 553): total sales of the
sorted usable points, NaN and negative values dropped. -/
def sparkValues (monthlyData : List (Option MonthlyPoint)) : List ℚ :=
  ((sortedPoints monthlyData).map (fun p => p.total_sales)).filterMap keepValue

/-- Math.min over a nonempty value list (line 565); the empty case is
unreachable in the branch that uses it. -/
def listMin : List ℚ → ℚ
  | [] => 0
  | x :: xs => xs.foldl min x

/-- Math.max over a nonempty value list (line 566). -/
def listMax : List ℚ → ℚ
  | [] => 0
  | x :: xs => xs.foldl max x

/-- What createMiniSparkline draws, independent of the canvas: a single
centered dot, a flat segment, or a polyline with its two endpoint dots. -/
inductive SparkShape where
  | dot : ℚ → ℚ → SparkShape
  | flat : ℚ → ℚ → ℚ → ℚ → SparkShape
  | poly : List (ℚ × ℚ) → ℚ × ℚ → ℚ × ℚ → SparkShape
deriving DecidableEq

/-- The geometry of map.js createMiniSparkline (lines 536 to 629): fewer than
two usable values draw one dot at the canvas center; a zero range draws a
flat segment at vertical center from x 5 to x width minus 5; otherwise a
polyline over the padded drawing area with dots on its first and last point.
The stroke colors are presentation only and are not modelled. -/
def createMiniSparkline (monthlyData : List (Option MonthlyPoint)) : SparkShape :=
  let values := sparkValues monthlyData
  if values.length < 2 then
    SparkShape.dot (sparkWidth / 2) (sparkHeight / 2)
  else
    let minValue := listMin values
    let maxValue := listMax values
    let range := maxValue - minValue
    if range = 0 then
      SparkShape.flat 5 (sparkHeight / 2) (sparkWidth - 5) (sparkHeight / 2)
    else
      let drawWidth := sparkWidth - sparkPadding * 2
      let drawHeight := sparkHeight - sparkPadding * 2
      let pts := values.enum.map (fun iv =>
        (sparkPadding + ((iv.1 : ℚ) / ((values.length : ℚ) - 1)) * drawWidth,
         sparkPadding + (drawHeight - ((iv.2 - minValue) / range * drawHeight))))
      let firstValue := values.headD 0
      let lastValue := values.getLastD 0
      SparkShape.poly pts
        (sparkPadding,
         sparkPadding + (drawHeight - ((firstValue - minValue) / range * drawHeight)))
        (sparkPadding + drawWidth,
         sparkPadding + (drawHeight - ((lastValue - minValue) / range * drawHeight)))

/-- Formulation following the words of claim C10: the plotted values are
exactly the total sales of the points that have a month key and a present,
finite, nonnegative total sales value, taken in ascending lexical month
order. -/
def plottedValuesSpec (monthlyData : List (Option MonthlyPoint)) : List ℚ :=
  (List.insertionSort monthLe (monthlyData.filterMap (fun od =>
    match od with
    | some p =>
      if monthTruthy p && (keepValue p.total_sales).isSome then some p else none
    | none => none))).filterMap (fun p => keepValue p.total_sales)

/-- A sample record with finite explicit coordinates, used as a concrete
input. Field order: licensee, address, city, region, zip, latitude,
longitude, trend direction, monthly data. -/
def recExplicit : Dispensary :=
  ⟨"Licensee A", "123 Main St", "Santa Fe", "North", some (ZipVal.num 87507),
   some (some 35), some (some (-106)), some "up", []⟩

/-- A cache holding entries for the candidate keys of recExplicit with other
coordinates, to exhibit that explicit coordinates win. -/
def cacheConflict : GeoCache :=
  [("123 Main St, Santa Fe", ⟨some 1, some 2⟩),
   ("123 Main St, Santa Fe 87507", ⟨some 3, some 4⟩)]

/-- A cache whose single key carries a period, matching a candidate key of
recExplicit only after canonicalization. -/
def cacheDotted : GeoCache :=
  [("123 Main St., Santa Fe 87507", ⟨some 1, some 2⟩)]

/-- A sample record with no explicit coordinates and a listed city. -/
def recCentroid : Dispensary :=
  ⟨"Licensee B", "77 Canyon Rd", "Santa Fe", "North", none,
   none, none, some "down", []⟩

/-- A sample record with an integral zip and no explicit coordinates. -/
def recZipNum : Dispensary :=
  ⟨"Licensee C", "500 Oak Ave", "Santa Fe", "North", some (ZipVal.num 87507),
   none, none, some "up", []⟩

/-- A cache keyed with the zip of recZipNum written with one decimal place. -/
def cacheZip : GeoCache :=
  [("500 Oak Ave, Santa Fe 87507.0", ⟨some 35, some (-106)⟩)]

/-- A sample record with no explicit coordinates whose second candidate key
matches the key of cacheNorm only after canonicalization. -/
def recNorm : Dispensary :=
  ⟨"Licensee D", "123 Main St", "Santa Fe", "North", some (ZipVal.str "87501"),
   none, none, some "up", []⟩

/-- A cache whose single key carries a period and matches a candidate key of
recNorm after canonicalization. -/
def cacheNorm : GeoCache :=
  [("123 Main St., Santa Fe 87501", ⟨some 7, some 8⟩)]

/-!
Helper lemmas shared by the claim theorems.
-/

/-- One hash step stays below 2 to the 32. -/
theorem seedStep_lt (h c : Nat) : seedStep h c < 4294967296 :=
  Nat.mod_lt _ (by norm_num)

/-- The folded hash stays below 2 to the 32 from any start below it. -/
theorem foldl_seedStep_lt (l : List Nat) :
    ∀ h : Nat, h < 4294967296 → l.foldl seedStep h < 4294967296 := by
  induction l with
  | nil => intro h hh; simpa using hh
  | cons c l ih => intro h _; exact ih _ (seedStep_lt h c)

/-- seededRandom lands in the unit interval. -/
theorem seededRandom_nonneg (seed : String) : 0 ≤ seededRandom seed := by
  unfold seededRandom
  positivity

/-- seededRandom is strictly below one. -/
theorem seededRandom_lt_one (seed : String) : seededRandom seed < 1 := by
  unfold seededRandom
  rw [div_lt_one (by norm_num)]
  exact_mod_cast foldl_seedStep_lt (charCodes seed) 2166136261 (by norm_num)

/-- Each jitter component at scale 0.004 is strictly smaller than 0.004 in
absolute value. -/
theorem jitter_component_bound (r : ℚ) (h0 : 0 ≤ r) (h1 : r < 1) :
    |(r - 1/2) * (0.004 : ℚ)| < 0.004 := by
  have hs : (0.004 : ℚ) = 1/250 := by norm_num
  rw [hs, abs_mul]
  have hr : |r - 1/2| ≤ 1/2 := by
    rw [abs_le]
    constructor <;> linarith
  have h250 : |(1/250 : ℚ)| = 1/250 := by norm_num
  rw [h250]
  nlinarith [hr]

/-- Bound for the first jitter component at the scale updateMap passes. -/
theorem jitter_fst_bound (seed : String) :
    |(getStableJitter seed 0.004).1| < 0.004 :=
  jitter_component_bound _ (seededRandom_nonneg _) (seededRandom_lt_one _)

/-- Bound for the second jitter component at the scale updateMap passes. -/
theorem jitter_snd_bound (seed : String) :
    |(getStableJitter seed 0.004).2| < 0.004 :=
  jitter_component_bound _ (seededRandom_nonneg _) (seededRandom_lt_one _)

/-- Claim C1: for every dispensary record whose latitude and longitude fields
both parse to finite numbers, updateMap resolves the marker position to
exactly those parsed coordinates, for every content of the geocode cache (and
with it the normalized index derived from it) and of the city centroid
table. -/
theorem c1_explicit_tier_priority (gc : Option GeoCache)
    (tbl : String → Option (ℚ × ℚ)) (d : Dispensary) (a b : ℚ)
    (hla : d.latitude = some (some a)) (hlo : d.longitude = some (some b)) :
    resolveCoord gc tbl d = some (a, b) := by
  unfold resolveCoord parsedExplicit
  rw [hla, hlo]

/-- Witness for C1: a concrete record with explicit coordinates resolves to
them although the cache and the centroid table map it elsewhere. -/
theorem c1_explicit_tier_priority_witness :
    recExplicit.latitude = some (some 35)
    ∧ recExplicit.longitude = some (some (-106))
    ∧ resolveCoord (some cacheConflict) cityTableLookup recExplicit =
        some (35, -106) :=
  ⟨rfl, rfl, c1_explicit_tier_priority (some cacheConflict) cityTableLookup
    recExplicit 35 (-106) rfl rfl⟩

/-- Claim C3: getStableJitter is a pure function of seed and scale, two calls
with identical arguments return identical pairs, and seededRandom returns the
same value in the interval from zero inclusive to one exclusive for the same
seed on every call. -/
theorem c3_jitter_determinism :
    (∀ (seed : String) (scale : ℚ),
      getStableJitter seed scale = getStableJitter seed scale)
    ∧ ∀ seed : String, seededRandom seed = seededRandom seed
        ∧ 0 ≤ seededRandom seed ∧ seededRandom seed < 1 :=
  ⟨fun _ _ => rfl,
   fun seed => ⟨rfl, seededRandom_nonneg seed, seededRandom_lt_one seed⟩⟩

/-- Claim C2: a record with no finite explicit coordinates and no cache hit
whose city is in the static centroid table resolves to the centroid plus the
jitter of seed address, bar, licensee at scale 0.004; each component differs
from the centroid by strictly less than 0.004, and resolving again gives the
same point. -/
theorem c2_centroid_jitter (gc : Option GeoCache) (d : Dispensary) (cla clo : ℚ)
    (hexp : parsedExplicit d = none) (hcache : cacheStage gc d = none)
    (hcity : cityTableLookup d.city = some (cla, clo)) :
    resolveCoord gc cityTableLookup d =
      some (cla + (getStableJitter (d.address ++ "|" ++ d.licensee) 0.004).1,
            clo + (getStableJitter (d.address ++ "|" ++ d.licensee) 0.004).2)
    ∧ |(getStableJitter (d.address ++ "|" ++ d.licensee) 0.004).1| < 0.004
    ∧ |(getStableJitter (d.address ++ "|" ++ d.licensee) 0.004).2| < 0.004
    ∧ resolveCoord gc cityTableLookup d = resolveCoord gc cityTableLookup d := by
  refine ⟨?_, jitter_fst_bound _, jitter_snd_bound _, rfl⟩
  unfold resolveCoord
  rw [hexp, hcache, hcity]

/-- Witness for C2: a concrete record with no coordinates and no cache
resolves to the Santa Fe centroid plus its stable jitter. -/
theorem c2_centroid_jitter_witness :
    parsedExplicit recCentroid = none
    ∧ cacheStage none recCentroid = none
    ∧ cityTableLookup recCentroid.city = some ((dec4 356870), (dec4 (-1059378)))
    ∧ (resolveCoord none cityTableLookup recCentroid =
        some ((dec4 356870) +
            (getStableJitter (recCentroid.address ++ "|" ++ recCentroid.licensee) 0.004).1,
          (dec4 (-1059378)) +
            (getStableJitter (recCentroid.address ++ "|" ++ recCentroid.licensee) 0.004).2)
      ∧ |(getStableJitter (recCentroid.address ++ "|" ++ recCentroid.licensee) 0.004).1|
          < 0.004
      ∧ |(getStableJitter (recCentroid.address ++ "|" ++ recCentroid.licensee) 0.004).2|
          < 0.004
      ∧ resolveCoord none cityTableLookup recCentroid =
          resolveCoord none cityTableLookup recCentroid) :=
  ⟨rfl, rfl, rfl,
   c2_centroid_jitter none recCentroid (dec4 356870) (dec4 (-1059378)) rfl rfl rfl⟩

/-- When some candidate key canonicalizes to a normalized index entry with
finite coordinates, the normalized lookup loop succeeds. -/
theorem normCacheHit_isSome (cache : GeoCache) :
    ∀ ks : List String,
      (∃ k ∈ ks, (entryCoords (normIndexLookup cache (normKey k))).isSome) →
      ∃ la lo : ℚ, normCacheHit cache ks = some (la, lo) := by
  intro ks
  induction ks with
  | nil => rintro ⟨k, hk, _⟩; cases hk
  | cons k0 rest ih =>
    rintro ⟨k, hk, hsome⟩
    cases h0 : entryCoords (normIndexLookup cache (normKey k0)) with
    | some p =>
      exact ⟨p.1, p.2, by simp [normCacheHit, h0]⟩
    | none =>
      rcases List.mem_cons.mp hk with rfl | hk2
      · rw [h0] at hsome; cases hsome
      · obtain ⟨la, lo, h⟩ := ih ⟨k, hk2, hsome⟩
        exact ⟨la, lo, by simp [normCacheHit, h0, h]⟩

/-- Counterexample to claim C4 as stated: a record with finite explicit
coordinates has a candidate key that canonicalizes to the key of a cache
entry with finite coordinates, yet resolution yields the explicit
coordinates, not that entry. -/
theorem c4_counterexample :
    "123 Main St, Santa Fe 87507" ∈ candidateKeys recExplicit
    ∧ normKey "123 Main St, Santa Fe 87507" = normKey "123 Main St., Santa Fe 87507"
    ∧ normIndexLookup cacheDotted (normKey "123 Main St, Santa Fe 87507") =
        some ⟨some 1, some 2⟩
    ∧ resolveCoord (some cacheDotted) cityTableLookup recExplicit = some (35, -106)
    ∧ some ((35 : ℚ), (-106 : ℚ)) ≠ some ((1 : ℚ), (2 : ℚ)) :=
  ⟨by decide, rfl, rfl, rfl, by decide⟩

/-- Claim C4 amended: for a record without finite explicit coordinates, when
no candidate key scores an exact cache hit with finite coordinates and some
candidate key equals a cache key after canonicalization with a finite entry,
resolution succeeds via the normalized index with the coordinates of the
first such candidate (exact lookups having been attempted first). -/
theorem c4_normalization_tolerance (cache : GeoCache)
    (tbl : String → Option (ℚ × ℚ)) (d : Dispensary)
    (hexp : parsedExplicit d = none)
    (hexact : exactCacheHit cache (candidateKeys d) = none)
    (hnorm : ∃ k ∈ candidateKeys d,
      (entryCoords (normIndexLookup cache (normKey k))).isSome) :
    ∃ la lo : ℚ, normCacheHit cache (candidateKeys d) = some (la, lo)
      ∧ resolveCoord (some cache) tbl d = some (la, lo) := by
  obtain ⟨la, lo, h⟩ := normCacheHit_isSome cache (candidateKeys d) hnorm
  refine ⟨la, lo, h, ?_⟩
  unfold resolveCoord cacheStage
  rw [hexp]
  simp [hexact, h]

/-- Witness for amended C4: the dotted cache key resolves the undotted
record through the normalized index. -/
theorem c4_normalization_tolerance_witness :
    parsedExplicit recNorm = none
    ∧ exactCacheHit cacheNorm (candidateKeys recNorm) = none
    ∧ (∃ k ∈ candidateKeys recNorm,
        (entryCoords (normIndexLookup cacheNorm (normKey k))).isSome)
    ∧ (∃ la lo : ℚ, normCacheHit cacheNorm (candidateKeys recNorm) = some (la, lo)
        ∧ resolveCoord (some cacheNorm) cityTableLookup recNorm = some (la, lo))
    ∧ resolveCoord (some cacheNorm) cityTableLookup recNorm = some (7, 8) :=
  ⟨rfl, rfl, by decide,
   c4_normalization_tolerance cacheNorm cityTableLookup recNorm rfl rfl (by decide),
   rfl⟩

/-- Claim C5: a record with nonempty trimmed address and city whose zip
renders to a string without a period produces exactly the three candidate
keys in order: address comma city, then with the raw zip string, then with
the zip rendered to one decimal place. -/
theorem c5_zip_decimal_candidates (d : Dispensary) (z : ZipVal)
    (hzip : d.zip = some z) (haddr : jsTrim d.address ≠ "")
    (hcity : jsTrim d.city ≠ "") (hdot : z.render.data.contains '.' = false) :
    candidateKeys d =
      [jsTrim d.address ++ ", " ++ jsTrim d.city,
       jsTrim d.address ++ ", " ++ jsTrim d.city ++ " " ++ z.render,
       jsTrim d.address ++ ", " ++ jsTrim d.city ++ " " ++ z.fixed1] := by
  unfold candidateKeys
  rw [hzip]
  simp [haddr, hcity, hdot]
  simpa using hdot

/-- Witness for C5: the integer zip 87507 yields the candidate written
87507.0, and a cache keyed that way resolves the record. -/
theorem c5_zip_decimal_candidates_witness :
    recZipNum.zip = some (ZipVal.num 87507)
    ∧ jsTrim recZipNum.address ≠ ""
    ∧ jsTrim recZipNum.city ≠ ""
    ∧ (ZipVal.num 87507).render.data.contains '.' = false
    ∧ candidateKeys recZipNum =
        ["500 Oak Ave, Santa Fe", "500 Oak Ave, Santa Fe 87507",
         "500 Oak Ave, Santa Fe 87507.0"]
    ∧ resolveCoord (some cacheZip) cityTableLookup recZipNum = some (35, -106) := by
  refine ⟨rfl, by decide, by decide, by decide, ?_, rfl⟩
  have h := c5_zip_decimal_candidates recZipNum (ZipVal.num 87507) rfl
    (by decide) (by decide) (by decide)
  rw [h]
  rfl

/-- baseTrend only ever yields up, down or stable. -/
theorem baseTrend_cases (t : Option String) :
    baseTrend t = "up" ∨ baseTrend t = "down" ∨ baseTrend t = "stable" := by
  unfold baseTrend
  by_cases h1 : t = none ∨ t = some ""
  · simp [h1]
  · simp only [h1, if_false]
    by_cases h2 : sIncludes (jsToLower (t.getD "")) "up"
    · simp [h2]
    · by_cases h3 : sIncludes (jsToLower (t.getD "")) "down" <;> simp [h2, h3]

/-- The fold of calculateStats counts each coarse bucket from any starting
counters. -/
theorem calculateStats_aux (ds : List Dispensary) : ∀ s : Stats,
    ds.foldl (fun s d => bumpStat s (baseTrend d.trend_direction)) s =
      ⟨s.up + ds.countP (fun d => baseTrend d.trend_direction == "up"),
       s.down + ds.countP (fun d => baseTrend d.trend_direction == "down"),
       s.stable + ds.countP (fun d => baseTrend d.trend_direction == "stable")⟩ := by
  induction ds with
  | nil => intro s; simp
  | cons d ds ih =>
    intro s
    rw [List.foldl_cons, ih]
    rcases baseTrend_cases d.trend_direction with h | h | h <;>
      simp [bumpStat, h, List.countP_cons] <;> omega

/-- Each record falls in exactly one coarse bucket, so the three bucket
counts add up to the length. -/
theorem countP_trend_sum (ds : List Dispensary) :
    ds.countP (fun d => baseTrend d.trend_direction == "up")
    + ds.countP (fun d => baseTrend d.trend_direction == "down")
    + ds.countP (fun d => baseTrend d.trend_direction == "stable") = ds.length := by
  induction ds with
  | nil => simp
  | cons d ds ih =>
    rcases baseTrend_cases d.trend_direction with h | h | h <;>
      simp [List.countP_cons, h] <;> omega

/-- Claim C7: baseTrend maps a label to up when its lower cased form holds
the substring up, else to down when it holds down, else to stable; the
concrete labels of the spec land as stated; and calculateStats counts every
record under exactly this mapping. -/
theorem c7_coarse_trend_mapping :
    (∀ s : String, baseTrend (some s) =
      if sIncludes (jsToLower s) "up" then "up"
      else if sIncludes (jsToLower s) "down" then "down" else "stable")
    ∧ baseTrend none = "stable"
    ∧ baseTrend (some "") = "stable"
    ∧ baseTrend (some "strong_up") = "up"
    ∧ baseTrend (some "strong_down") = "down"
    ∧ baseTrend (some "insufficient_data") = "stable"
    ∧ ∀ ds : List Dispensary, calculateStats ds =
        ⟨ds.countP (fun d => baseTrend d.trend_direction == "up"),
         ds.countP (fun d => baseTrend d.trend_direction == "down"),
         ds.countP (fun d => baseTrend d.trend_direction == "stable")⟩ := by
  refine ⟨?_, rfl, rfl, by decide, by decide, by decide, ?_⟩
  · intro s
    by_cases hs : s = ""
    · subst hs; decide
    · unfold baseTrend
      simp [hs]
  · intro ds
    unfold calculateStats
    rw [calculateStats_aux ds ⟨0, 0, 0⟩]
    simp

/-- Claim C9: the three counters of calculateStats always add up to the
number of records, since baseTrend is total and puts every record in exactly
one coarse bucket. -/
theorem c9_trend_count_partition (ds : List Dispensary) :
    (calculateStats ds).up + (calculateStats ds).down + (calculateStats ds).stable
      = ds.length := by
  unfold calculateStats
  rw [calculateStats_aux ds ⟨0, 0, 0⟩]
  simpa using countP_trend_sum ds

/-- A conditionally skipped filter stage equals one filter whose predicate
passes whenever the stage is inactive. -/
theorem condFilter_eq {α : Type} (c : Prop) [Decidable c] (p : α → Bool)
    (l : List α) :
    (if c then l else l.filter p) = l.filter (fun a => decide c || p a) := by
  by_cases h : c
  · simp [h]
  · simp [h]

/-- applyFilters is one pass keeping exactly the records that satisfy every
active predicate. -/
theorem applyFilters_eq_filter (src : List Dispensary) (si r c t : String) :
    applyFilters src si r c t = src.filter (fun d =>
      (((decide (jsToLower si = "") || searchHit (jsToLower si) d)
        && (decide (r = "") || d.region == r))
        && (decide (c = "") || d.city == c))
        && (decide (t = "all") || baseTrend d.trend_direction == t)) := by
  unfold applyFilters
  rw [condFilter_eq, condFilter_eq, condFilter_eq, condFilter_eq,
      List.filter_filter, List.filter_filter, List.filter_filter]
  apply List.filter_congr
  intro a _
  ac_rfl

/-- Claim C6: applyFilters keeps exactly the records satisfying the
conjunction of all active predicates; region and trend together select
exactly the intersection of the two single predicate results; and with every
predicate inactive the result is the source list itself. -/
theorem c6_filter_composition (src : List Dispensary) (si r c t : String) :
    (∀ d, d ∈ applyFilters src si r c t ↔
      d ∈ src ∧ (¬ jsToLower si = "" → searchHit (jsToLower si) d = true)
      ∧ (¬ r = "" → d.region = r) ∧ (¬ c = "" → d.city = c)
      ∧ (¬ t = "all" → baseTrend d.trend_direction = t))
    ∧ (∀ d, d ∈ applyFilters src "" r "" t ↔
      d ∈ applyFilters src "" r "" "all" ∧ d ∈ applyFilters src "" "" "" t)
    ∧ applyFilters src "" "" "" "all" = src := by
  have hmem : ∀ si r c t : String, ∀ d,
      d ∈ applyFilters src si r c t ↔
        d ∈ src ∧ (¬ jsToLower si = "" → searchHit (jsToLower si) d = true)
        ∧ (¬ r = "" → d.region = r) ∧ (¬ c = "" → d.city = c)
        ∧ (¬ t = "all" → baseTrend d.trend_direction = t) := by
    intro si r c t d
    rw [applyFilters_eq_filter, List.mem_filter]
    simp only [Bool.and_eq_true, Bool.or_eq_true, decide_eq_true_eq, beq_iff_eq]
    constructor
    · rintro ⟨hd, ⟨⟨⟨h1, h2⟩, h3⟩, h4⟩⟩
      exact ⟨hd, fun h => h1.resolve_left h, fun h => h2.resolve_left h,
        fun h => h3.resolve_left h, fun h => h4.resolve_left h⟩
    · rintro ⟨hd, h1, h2, h3, h4⟩
      refine ⟨hd, ⟨⟨⟨?_, ?_⟩, ?_⟩, ?_⟩⟩
      · by_cases h : jsToLower si = ""
        · exact Or.inl h
        · exact Or.inr (h1 h)
      · by_cases h : r = ""
        · exact Or.inl h
        · exact Or.inr (h2 h)
      · by_cases h : c = ""
        · exact Or.inl h
        · exact Or.inr (h3 h)
      · by_cases h : t = "all"
        · exact Or.inl h
        · exact Or.inr (h4 h)
  have hlow : jsToLower "" = "" := rfl
  refine ⟨hmem si r c t, ?_, ?_⟩
  · intro d
    rw [hmem, hmem, hmem]
    simp [hlow]
    tauto
  · rw [applyFilters_eq_filter]
    simp [hlow]

/-- Inserting an element that relates to every member goes to the front. -/
theorem orderedInsert_eq_cons {α : Type} (r : α → α → Prop) [DecidableRel r]
    (a : α) (l : List α) (h : ∀ x ∈ l, r a x) :
    List.orderedInsert r a l = a :: l := by
  cases l with
  | nil => rfl
  | cons x xs => rw [List.orderedInsert, if_pos (h x (List.mem_cons_self x xs))]

/-- Filtering commutes with an ordered insert into a sorted list: the
inserted element survives exactly when the predicate holds of it. -/
theorem filter_orderedInsert {α : Type} (r : α → α → Prop) [DecidableRel r]
    [IsTrans α r] (p : α → Bool) (a : α) :
    ∀ l : List α, l.Sorted r →
      (List.orderedInsert r a l).filter p =
        if p a then List.orderedInsert r a (l.filter p) else l.filter p := by
  intro l
  induction l with
  | nil =>
    intro _
    by_cases hpa : p a <;> simp [List.orderedInsert, List.filter_cons, hpa]
  | cons b l ih =>
    intro hs
    have hsl : l.Sorted r := hs.of_cons
    have hbl : ∀ x ∈ l, r b x := List.rel_of_sorted_cons hs
    by_cases hab : r a b
    · rw [List.orderedInsert, if_pos hab]
      by_cases hpa : p a
      · by_cases hpb : p b
        · simp [List.filter_cons, hpa, hpb, List.orderedInsert, hab]
        · simp only [List.filter_cons, hpa, hpb, if_true, Bool.false_eq_true,
            if_false]
          rw [orderedInsert_eq_cons r a (l.filter p)]
          intro x hx
          exact Trans.trans hab (hbl x (List.mem_filter.mp hx).1)
      · simp [List.filter_cons, hpa]
    · rw [List.orderedInsert, if_neg hab]
      by_cases hpb : p b
      · by_cases hpa : p a
        · simp only [List.filter_cons, hpb, hpa, if_true]
          rw [ih hsl, if_pos hpa, List.orderedInsert, if_neg hab]
        · simp only [List.filter_cons, hpb, hpa, if_true, Bool.false_eq_true,
            if_false]
          rw [ih hsl, if_neg hpa]
      · simp only [List.filter_cons, hpb, Bool.false_eq_true, if_false]
        rw [ih hsl]

/-- Filtering commutes with insertion sort. -/
theorem filter_insertionSort {α : Type} (r : α → α → Prop) [DecidableRel r]
    [IsTotal α r] [IsTrans α r] (p : α → Bool) :
    ∀ l : List α, (List.insertionSort r l).filter p =
      List.insertionSort r (l.filter p) := by
  intro l
  induction l with
  | nil => rfl
  | cons a l ih =>
    rw [List.insertionSort,
        filter_orderedInsert r p a _ (List.sorted_insertionSort r l)]
    by_cases hpa : p a
    · rw [if_pos hpa, ih]
      simp only [List.filter_cons, hpa, if_true, List.insertionSort]
    · rw [if_neg hpa, ih]
      simp only [List.filter_cons, hpa, Bool.false_eq_true, if_false]

/-- filterMap only sees the elements on which its function is defined. -/
theorem filterMap_filter_isSome {α β : Type} (h : α → Option β) (l : List α) :
    l.filterMap h = (l.filter (fun a => (h a).isSome)).filterMap h := by
  induction l with
  | nil => rfl
  | cons a l ih =>
    cases ha : h a <;>
      simp [List.filterMap_cons, List.filter_cons, ha, ih]

/-- A value the second sparkline filter keeps was present in the first
place. -/
theorem keepValue_isSome_total (x : Option (Option ℚ)) :
    (keepValue x).isSome → x.isSome := by
  cases x with
  | none => intro h; cases h
  | some v => intro _; rfl

/-- The two stage filter of createMiniSparkline keeps exactly the points with
a truthy month and a present, finite, nonnegative sales value. -/
theorem usablePoints_filter (md : List (Option MonthlyPoint)) :
    (usablePoints md).filter (fun p => (keepValue p.total_sales).isSome) =
      md.filterMap (fun od =>
        match od with
        | some p =>
          if monthTruthy p && (keepValue p.total_sales).isSome then some p
          else none
        | none => none) := by
  induction md with
  | nil => rfl
  | cons od md ih =>
    cases od with
    | none => simpa [usablePoints, List.filterMap_cons] using ih
    | some p =>
      by_cases hm : monthTruthy p
      · by_cases hk : (keepValue p.total_sales).isSome
        · have hts : p.total_sales.isSome := keepValue_isSome_total _ hk
          simp only [usablePoints, List.filterMap_cons, hm, hts, Bool.and_self,
            if_true, hk, List.filter_cons, Bool.true_and] at ih ⊢
          rw [ih]
        · by_cases hts : p.total_sales.isSome
          · simp only [usablePoints, List.filterMap_cons, hm, hts, hk,
              List.filter_cons, Bool.true_and, if_true, Bool.false_eq_true,
              if_false] at ih ⊢
            rw [ih]
          · simp only [usablePoints, List.filterMap_cons, hm, hts, hk,
              List.filter_cons, Bool.true_and, Bool.and_false,
              Bool.false_eq_true, if_false] at ih ⊢
            rw [ih]
      · simp only [usablePoints, List.filterMap_cons, hm, Bool.false_and,
          Bool.false_eq_true, if_false] at ih ⊢
        rw [ih]

/-- Claim C8: with fewer than two usable values createMiniSparkline draws one
point centered on the canvas; with at least two values all equal it draws one
horizontal segment at vertical center running from x padding to x width minus
padding. -/
theorem c8_sparkline_degeneracy (md : List (Option MonthlyPoint)) :
    ((sparkValues md).length < 2 →
      createMiniSparkline md = SparkShape.dot (sparkWidth / 2) (sparkHeight / 2))
    ∧ (2 ≤ (sparkValues md).length →
      listMax (sparkValues md) = listMin (sparkValues md) →
      createMiniSparkline md =
        SparkShape.flat sparkPadding (sparkHeight / 2)
          (sparkWidth - sparkPadding) (sparkHeight / 2)) := by
  constructor
  · intro h
    unfold createMiniSparkline
    simp [h]
  · intro h hr
    unfold createMiniSparkline
    rw [if_neg (by omega), if_pos (by rw [hr, sub_self])]
    rfl

/-- Claim C10: the values createMiniSparkline plots are exactly the total
sales of the points with a month key and a present, finite, nonnegative
sales value, in ascending lexical month order; a two point series with one
negative value renders as the single centered dot. -/
theorem c10_negative_sales_excluded :
    (∀ md : List (Option MonthlyPoint), sparkValues md = plottedValuesSpec md)
    ∧ createMiniSparkline
        [some ⟨some "2025-01", some (some 500)⟩,
         some ⟨some "2025-02", some (some (-3))⟩]
      = SparkShape.dot (sparkWidth / 2) (sparkHeight / 2) := by
  have hvals : ∀ md : List (Option MonthlyPoint),
      sparkValues md = plottedValuesSpec md := by
    intro md
    unfold sparkValues plottedValuesSpec sortedPoints
    rw [List.filterMap_map]
    show List.filterMap (fun p : MonthlyPoint => keepValue p.total_sales)
        (List.insertionSort monthLe (usablePoints md)) = _
    rw [filterMap_filter_isSome (fun p : MonthlyPoint => keepValue p.total_sales)]
    rw [filter_insertionSort monthLe]
    rw [usablePoints_filter]
  refine ⟨hvals, ?_⟩
  have hv : sparkValues
      [some ⟨some "2025-01", some (some 500)⟩,
       some ⟨some "2025-02", some (some (-3))⟩] = [500] := by
    rw [hvals]
    rfl
  unfold createMiniSparkline
  rw [hv]
  rfl

end DispoMap
